import Mathlib

/-!
Verification of the OECD main-economic-indicators dashboard (`app.py`).

The program fetches three OECD time series (CLI, BCI, CCI) via dbnomics,
filters out the `'NA'` value sentinel and periods before `'2020'`, labels
each batch with its indicator tag, concatenates the batches, filters the
combined table by the user-selected countries, and renders a line chart
faceted by indicator with a dashed reference line at y = 100 added at the
hardcoded facet rows 2 and 3.

Tables are embedded as lists of rows; pandas operations on them become the
corresponding list operations (`query` on a column predicate is `filter`,
`concat` with `ignore_index` is `append`, boolean-mask indexing via `isin`
is `filter`). Plotly faceting is modelled per the spec (§4.3): with
`facet_row='Indicator'`, facet row k holds the k-th distinct indicator
value in order of appearance in the data, and `add_hline(row=k)` targets
facet row k, doing nothing when that row does not exist.
-/

/-- One observation row as returned by `fetch_series`, restricted to the
columns the program reads: `Country`, `period` and `value`. The `value`
column is kept as a string because the code's sentinel filter
`query("value != 'NA'")` is a string comparison; other passthrough
metadata columns are elided as no code reads them. -/
structure Obs where
  Country : String
  period : String
  value : String
deriving DecidableEq, Repr

/-- An observation row after the `Indicator` tag column has been assigned
(lines 14-16 of `app.py`). -/
structure Row where
  Country : String
  period : String
  value : String
  Indicator : String
deriving DecidableEq, Repr

/-- Lexicographic string comparison on the underlying character lists:
the order pandas uses for `period >= '2020'` and the order underlying
Lean's `String` instances. -/
def strLtB (a b : String) : Bool :=
  decide (a.data < b.data)

/-- `a <= b` on strings, expressed through `strLtB`. -/
def strLeB (a b : String) : Bool :=
  !(strLtB b a)

/-- The two post-fetch filters applied to each fetched batch
(lines 10-12): `query("value != 'NA'")` then `query("period >= '2020'")`. -/
def fetchFilter (raw : List Obs) : List Obs :=
  (raw.filter (fun r => !(r.value == "NA"))).filter
    (fun r => strLeB "2020" r.period)

/-- Assigning the constant `Indicator` column to one row
(`df['Indicator'] = tag`, lines 14-16). -/
def labelRow (tag : String) (o : Obs) : Row :=
  { Country := o.Country, period := o.period, value := o.value, Indicator := tag }

/-- Assigning the constant `Indicator` column to a whole batch. -/
def label (tag : String) (b : List Obs) : List Row :=
  b.map (labelRow tag)

/-- The combiner: label the three filtered batches CLI, BCI, CCI and
concatenate them in that fixed order
(`pd.concat([dfcli, dfbci, dfcci], ignore_index=True)`, lines 14-19). -/
def combine (dfcli dfbci dfcci : List Obs) : List Row :=
  label "CLI" dfcli ++ label "BCI" dfbci ++ label "CCI" dfcci

/-- `fetch_clean_combine` (lines 8-20), parameterized by the three raw
payloads the remote API would return. -/
def fetch_clean_combine (rawCli rawBci rawCci : List Obs) : List Row :=
  combine (fetchFilter rawCli) (fetchFilter rawBci) (fetchFilter rawCci)

/-- The selection filter `df[df.Country.isin(Regions)]` (line 62). -/
def filterCountries (df : List Row) (Regions : List String) : List Row :=
  df.filter (fun r => Regions.contains r.Country)

/-- Helper for order-of-first-appearance deduplication: `seen` records the
values already emitted. -/
def uniqueAux {α : Type} [DecidableEq α] : List α → List α → List α
  | [], _ => []
  | x :: xs, seen =>
    if x ∈ seen then uniqueAux xs seen else x :: uniqueAux xs (x :: seen)

/-- Distinct values of a column in order of first appearance: the
semantics of pandas `Series.unique()` and of plotly's default category
order for facets. -/
def uniqueInOrder {α : Type} [DecidableEq α] (l : List α) : List α :=
  uniqueAux l []

/-- `df.Country.unique()` (line 56): the options offered by the
country multiselect. -/
def locations (df : List Row) : List String :=
  uniqueInOrder (df.map (·.Country))

/-- The indicator shown on each facet row of `px.line(..,
facet_row='Indicator')` (line 67): facet row k (1-based) holds the k-th
distinct indicator in order of appearance in the charted data. -/
def facetIndicators (df : List Row) : List String :=
  uniqueInOrder (df.map (·.Indicator))

/-- The colored traces of one facet: `px.line(.., color='Country')`
creates one trace per country present in that facet's rows. -/
def facetTraces (df : List Row) (ind : String) : List String :=
  uniqueInOrder ((df.filter (fun r => r.Indicator == ind)).map (·.Country))

/-- The facet rows at which the loop in lines 112-122 calls
`fig.add_hline(y=100, row=i+1)`: indices into the fixed list
`['CLI', 'BCI', 'CCI']` whose element is in `['BCI', 'CCI']`, plus one. -/
def hlineRowIndices : List Nat :=
  ((["CLI", "BCI", "CCI"].enum.filter
      (fun p => ["BCI", "CCI"].contains p.2)).map (fun p => p.1 + 1))

/-- The chart artifact the builder produces, to the detail the claims
need: the facet rows, the per-facet colored traces, and the facet rows
carrying the dashed y=100 reference line. -/
structure Chart where
  facets : List String
  tracesPerFacet : List (String × List String)
  hlines : List Nat
deriving DecidableEq, Repr

/-- The chart-building step (lines 62-122) on the already-filtered view:
facets and traces from `px.line`, reference lines from the
`fig.add_hline` loop; an `add_hline` aimed at a facet row that does not
exist targets no subplot and is dropped. -/
def buildChart (view : List Row) : Chart :=
  { facets := facetIndicators view
    tracesPerFacet :=
      (facetIndicators view).map (fun ind => (ind, facetTraces view ind))
    hlines := hlineRowIndices.filter
      (fun k => decide (k ≤ (facetIndicators view).length)) }

/-- The indicators whose facet rows carry the y=100 reference line. -/
def refLineIndicators (view : List Row) : List String :=
  (buildChart view).hlines.filterMap
    (fun k => (facetIndicators view).get? (k - 1))

/-- The country multiselect widget as constructed: the options it offers
and its default selection. -/
structure Multiselect where
  options : List String
  dflt : List String
deriving DecidableEq, Repr

/-- Constructing `st.multiselect(label, options, default=[...])`:
streamlit validates that every default value occurs among the options and
raises `StreamlitAPIException` ("Every Multiselect default value must
exist in options") otherwise, modelled as `Except.error`. -/
def multiselect (options dflt : List String) : Except String Multiselect :=
  if dflt.all (fun d => options.contains d) then
    Except.ok { options := options, dflt := dflt }
  else
    Except.error "Every Multiselect default value must exist in options"

/-- The country control of line 59:
`st.multiselect('Choose the countries or regions', locations, default = ['United States'])`. -/
def regionsControl (df : List Row) : Except String Multiselect :=
  multiselect (locations df) ["United States"]

/-- The script body from line 54 to line 124 on the initial run: build the
country control (which errors out when its hardcoded default is not among
the options) and, only when that succeeds, chart the view filtered by the
initial selection, i.e. the control's default. -/
def appRender (df : List Row) : Except String Chart :=
  (regionsControl df).map (fun ms => buildChart (filterCountries df ms.dflt))

/-- One interactive render pass (lines 54-124) at an arbitrary current
selection: the derived view, the chart built from it, and the combined
dataset as the script leaves it for subsequent reruns. -/
def renderPass (df : List Row) (Regions : List String) :
    (List Row × Chart) × List Row :=
  ((filterCountries df Regions, buildChart (filterCountries df Regions)), df)

/-- `strLtB` decides the standard strict order on `String`. -/
theorem strLtB_iff (a b : String) : strLtB a b = true ↔ a < b := by
  have h : a.data < b.data ↔ a < b := String.lt_iff_toList_lt.symm
  simp only [strLtB, decide_eq_true_eq]
  exact h

/-- `strLeB` decides the standard order on `String`. -/
theorem strLeB_iff (a b : String) : strLeB a b = true ↔ a ≤ b := by
  cases hb : strLtB b a with
  | false =>
    simp only [strLeB, hb, Bool.not_false, true_iff]
    refine not_lt.mp (fun hba => ?_)
    rw [← strLtB_iff b a, hb] at hba
    cases hba
  | true =>
    simp only [strLeB, hb, Bool.not_true]
    constructor
    · intro h
      cases h
    · intro hle
      exact absurd ((strLtB_iff b a).mp hb) (not_lt.mpr hle)

/-- A combined dataset whose three indicator tags appear in the order
BCI, CLI, CCI: valid for the chart builder (all three indicators present,
one row each) but not in the fixed order the reference-line loop
assumes. -/
def reorderedView : List Row :=
  [⟨"United States", "2021-01", "101.2", "BCI"⟩,
   ⟨"United States", "2021-01", "100.4", "CLI"⟩,
   ⟨"United States", "2021-01", "98.9", "CCI"⟩]

/-- Mock CLI batch of the end-to-end scenario: one row for the United
States and one for Germany. -/
def cliBatch : List Obs :=
  [⟨"United States", "2021-01", "100.5"⟩, ⟨"Germany", "2021-01", "99.2"⟩]

/-- Mock BCI batch of the end-to-end scenario: two rows for the United
States. -/
def bciBatch : List Obs :=
  [⟨"United States", "2021-01", "101.0"⟩, ⟨"United States", "2021-02", "101.3"⟩]

/-- Mock CCI batch of the end-to-end scenario: two rows for the United
States. -/
def cciBatch : List Obs :=
  [⟨"United States", "2021-01", "98.7"⟩, ⟨"United States", "2021-02", "98.9"⟩]

/-- The end-to-end scenario's charted view: the three mock batches
combined, filtered by the selection containing only the United States. -/
def scenarioView : List Row :=
  filterCountries (fetch_clean_combine cliBatch bciBatch cciBatch)
    ["United States"]

/-- A small combined dataset with two distinct countries, the United
States appearing twice. -/
def twoCountryDf : List Row :=
  [⟨"United States", "2021-01", "100.9", "CLI"⟩,
   ⟨"Germany", "2021-01", "99.8", "CLI"⟩,
   ⟨"United States", "2021-01", "101.1", "BCI"⟩]

/-- Membership in the deduplication accumulator traversal. -/
theorem mem_uniqueAux {α : Type} [DecidableEq α] (l : List α) (seen : List α)
    (c : α) : c ∈ uniqueAux l seen ↔ c ∈ l ∧ c ∉ seen := by
  induction l generalizing seen with
  | nil => simp [uniqueAux]
  | cons x xs ih =>
    by_cases hx : x ∈ seen
    · rw [show uniqueAux (x :: xs) seen = uniqueAux xs seen by
        simp [uniqueAux, hx], ih]
      simp only [List.mem_cons]
      constructor
      · rintro ⟨h1, h2⟩
        exact ⟨Or.inr h1, h2⟩
      · rintro ⟨h1 | h1, h2⟩
        · exact absurd (h1 ▸ hx) h2
        · exact ⟨h1, h2⟩
    · rw [show uniqueAux (x :: xs) seen = x :: uniqueAux xs (x :: seen) by
        simp [uniqueAux, hx]]
      simp only [List.mem_cons, ih]
      constructor
      · rintro (rfl | ⟨h1, h2⟩)
        · exact ⟨Or.inl rfl, hx⟩
        · exact ⟨Or.inr h1, fun hc => h2 (Or.inr hc)⟩
      · rintro ⟨h1 | h1, h2⟩
        · exact Or.inl h1
        · by_cases hcx : c = x
          · exact Or.inl hcx
          · exact Or.inr ⟨h1, fun hc => hc.elim hcx h2⟩

/-- The deduplication traversal emits no duplicates. -/
theorem nodup_uniqueAux {α : Type} [DecidableEq α] (l : List α)
    (seen : List α) : (uniqueAux l seen).Nodup := by
  induction l generalizing seen with
  | nil => simp [uniqueAux]
  | cons x xs ih =>
    by_cases hx : x ∈ seen
    · rw [show uniqueAux (x :: xs) seen = uniqueAux xs seen by
        simp [uniqueAux, hx]]
      exact ih seen
    · rw [show uniqueAux (x :: xs) seen = x :: uniqueAux xs (x :: seen) by
        simp [uniqueAux, hx]]
      refine List.nodup_cons.mpr ⟨?_, ih (x :: seen)⟩
      intro hmem
      exact ((mem_uniqueAux xs (x :: seen) x).mp hmem).2 (List.mem_cons_self x seen)

/-- `uniqueInOrder` keeps exactly the values of the column. -/
theorem mem_uniqueInOrder {α : Type} [DecidableEq α] (l : List α) (c : α) :
    c ∈ uniqueInOrder l ↔ c ∈ l := by
  simp [uniqueInOrder, mem_uniqueAux]

/-- `uniqueInOrder` emits no duplicates. -/
theorem nodup_uniqueInOrder {α : Type} [DecidableEq α] (l : List α) :
    (uniqueInOrder l).Nodup :=
  nodup_uniqueAux l []

/-- C1: the claim asks that the dashed y=100 reference line land only on
the BCI and CCI facet rows and never on the CLI one, for every valid
combined dataset, whatever order the indicator tags appear in. The code
instead hardcodes facet rows 2 and 3: on a combined dataset whose tags
appear in the order BCI, CLI, CCI, the CLI facet (row 2) carries a
reference line and the BCI facet (row 1) carries none, refuting the
claim on the code as written. -/
theorem c1_fixed_rows_misplace_refline :
    refLineIndicators reorderedView = ["CLI", "CCI"] ∧
    "CLI" ∈ refLineIndicators reorderedView ∧
    "BCI" ∉ refLineIndicators reorderedView := by decide

/-- C2: the combined dataset has as many rows as the three batches
together; filtering it on each indicator tag recovers exactly the
corresponding labeled batch, and every row carries one of the three
tags, so the tags partition the combined dataset into three disjoint,
correctly labeled subsets. -/
theorem c2_combine_partitions (b1 b2 b3 : List Obs) :
    (combine b1 b2 b3).length = b1.length + b2.length + b3.length ∧
    (combine b1 b2 b3).filter (fun r => r.Indicator == "CLI") = label "CLI" b1 ∧
    (combine b1 b2 b3).filter (fun r => r.Indicator == "BCI") = label "BCI" b2 ∧
    (combine b1 b2 b3).filter (fun r => r.Indicator == "CCI") = label "CCI" b3 ∧
    (combine b1 b2 b3).all
      (fun r => ["CLI", "BCI", "CCI"].contains r.Indicator) = true := by
  refine ⟨?_, ?_, ?_, ?_, ?_⟩ <;>
    simp [combine, label, labelRow, List.filter_append, List.filter_map,
      List.all_append, List.all_map, Function.comp_def, Nat.add_assoc]

/-- C3: no row surviving the fetcher's post-fetch filters has the 'NA'
value sentinel, and none has a period string earlier than '2020'. -/
theorem c3_fetch_filters (raw : List Obs) (r : Obs) (hr : r ∈ fetchFilter raw) :
    r.value ≠ "NA" ∧ ¬ r.period < "2020" := by
  rw [fetchFilter] at hr
  have h2 := List.mem_filter.mp hr
  have h1 := List.mem_filter.mp h2.1
  refine ⟨?_, ?_⟩
  · intro hv
    have hb := h1.2
    rw [hv] at hb
    simp at hb
  · exact not_lt.mpr ((strLeB_iff _ _).mp h2.2)

/-- C3 witness: the filters pass the well-formed row of a concrete batch
and the theorem applies to it. -/
theorem c3_fetch_filters_witness :
    (⟨"United States", "2021-01", "101.0"⟩ : Obs).value ≠ "NA" ∧
    ¬ (⟨"United States", "2021-01", "101.0"⟩ : Obs).period < "2020" :=
  c3_fetch_filters
    [⟨"United States", "2019-01", "NA"⟩, ⟨"United States", "2021-01", "101.0"⟩]
    ⟨"United States", "2021-01", "101.0"⟩ (by decide)

/-- C4: the selection filter keeps exactly the rows whose country is in
the selected set; the empty selection and a selection naming a country
absent from the dataset both give zero rows, and the empty view still
builds a well-formed (empty) chart rather than failing. -/
theorem c4_selection_filter (df : List Row) (Regions : List String)
    (c : String) (hc : c ∉ df.map (·.Country)) :
    (∀ r, r ∈ filterCountries df Regions ↔ r ∈ df ∧ r.Country ∈ Regions) ∧
    filterCountries df [] = [] ∧
    filterCountries df [c] = [] ∧
    buildChart (filterCountries df []) = ⟨[], [], []⟩ := by
  have hempty : filterCountries df [] = [] := by
    simp [filterCountries]
  refine ⟨?_, hempty, ?_, ?_⟩
  · intro r
    simp [filterCountries, List.mem_filter]
  · rw [filterCountries, List.filter_eq_nil_iff]
    intro r hrdf hrc
    have hrc2 : r.Country = c := by simpa using hrc
    exact hc (List.mem_map.mpr ⟨r, hrdf, hrc2⟩)
  · rw [hempty]
    rfl

/-- C4 witness: a one-row dataset filtered by the empty selection and by
a selection naming an absent country, both yielding no rows. -/
theorem c4_selection_filter_witness :
    filterCountries [⟨"United States", "2021-01", "100.9", "CLI"⟩] [] = [] ∧
    filterCountries [⟨"United States", "2021-01", "100.9", "CLI"⟩]
      ["Atlantis"] = [] := by
  have h := c4_selection_filter
    [⟨"United States", "2021-01", "100.9", "CLI"⟩] ["United States"]
    "Atlantis" (by decide)
  exact ⟨h.2.1, h.2.2.1⟩

/-- C5 counterexample: with exactly the mock batches the claim fixes
(two rows each; CLI for the United States and Germany, BCI and CCI both
for the United States), filtering the combined dataset by the selection
containing only the United States yields 5 rows, not the 3 rows the
claim asserts. -/
theorem c5_scenario_has_five_rows :
    scenarioView.length = 5 ∧ scenarioView.length ≠ 3 := by decide

/-- C5 (amended): with the claim's mock batches, selecting only the
United States yields a 5-row view (one CLI row, two BCI rows, two CCI
rows); the chart has 3 facet rows in the order CLI, BCI, CCI, exactly
one colored trace per facet, and exactly two y=100 reference lines,
on the BCI and CCI facet rows only. -/
theorem c5_end_to_end_scenario :
    scenarioView.length = 5 ∧
    (scenarioView.filter (fun r => r.Indicator == "CLI")).length = 1 ∧
    (scenarioView.filter (fun r => r.Indicator == "BCI")).length = 2 ∧
    (scenarioView.filter (fun r => r.Indicator == "CCI")).length = 2 ∧
    (buildChart scenarioView).facets = ["CLI", "BCI", "CCI"] ∧
    (buildChart scenarioView).tracesPerFacet =
      [("CLI", ["United States"]), ("BCI", ["United States"]),
       ("CCI", ["United States"])] ∧
    (buildChart scenarioView).hlines = [2, 3] ∧
    refLineIndicators scenarioView = ["BCI", "CCI"] := by decide

/-- C6: the combiner's output has the three labeled batches laid out
contiguously from index 0 in the fixed order CLI, BCI, CCI: position i
holds the i-th CLI row, position |b1| + i the i-th BCI row, and position
|b1| + |b2| + i the i-th CCI row, each row preserved whole up to the
added indicator column. -/
theorem c6_concat_reindexes (b1 b2 b3 : List Obs) (i : Nat) :
    (combine b1 b2 b3).length = b1.length + b2.length + b3.length ∧
    (i < b1.length →
      (combine b1 b2 b3)[i]? = (b1[i]?).map (labelRow "CLI")) ∧
    (i < b2.length →
      (combine b1 b2 b3)[b1.length + i]? = (b2[i]?).map (labelRow "BCI")) ∧
    (i < b3.length →
      (combine b1 b2 b3)[b1.length + b2.length + i]? =
        (b3[i]?).map (labelRow "CCI")) := by
  refine ⟨by simp [combine, label, Nat.add_assoc], ?_, ?_, ?_⟩
  · intro hi
    rw [combine,
      List.getElem?_append_left
        (by simp only [label, List.length_append, List.length_map]; omega),
      List.getElem?_append_left
        (by simp only [label, List.length_map]; omega)]
    simp [label]
  · intro hi
    rw [combine,
      List.getElem?_append_left
        (by simp only [label, List.length_append, List.length_map]; omega),
      List.getElem?_append_right
        (by simp only [label, List.length_map]; omega)]
    simp only [label, List.length_map, List.getElem?_map,
      Nat.add_sub_cancel_left]
  · intro hi
    rw [combine,
      List.getElem?_append_right
        (by simp only [label, List.length_append, List.length_map]; omega)]
    simp only [label, List.length_append, List.length_map, List.getElem?_map]
    congr 2
    omega

/-- C6 witness: three one-row batches; the middle position of the
combined table holds the labeled BCI row. -/
theorem c6_concat_reindexes_witness :
    (combine [⟨"France", "2021-01", "1.0"⟩] [⟨"Japan", "2021-02", "2.0"⟩]
        [⟨"Italy", "2021-03", "3.0"⟩]).length = 3 ∧
    (combine [⟨"France", "2021-01", "1.0"⟩] [⟨"Japan", "2021-02", "2.0"⟩]
        [⟨"Italy", "2021-03", "3.0"⟩])[1]? =
      some (labelRow "BCI" ⟨"Japan", "2021-02", "2.0"⟩) := by
  have h := c6_concat_reindexes [⟨"France", "2021-01", "1.0"⟩]
    [⟨"Japan", "2021-02", "2.0"⟩] [⟨"Italy", "2021-03", "3.0"⟩] 0
  exact ⟨h.1, h.2.2.1 (by decide)⟩

/-- C7: a render pass never mutates the combined dataset: the dataset it
leaves behind is the one it was given, and what the chart is built from
is a derived view, a sublist of that dataset obtained by the selection
filter. -/
theorem c7_render_pass_frame (df : List Row) (Regions : List String) :
    (renderPass df Regions).2 = df ∧
    ((renderPass df Regions).1.1).Sublist df ∧
    (renderPass df Regions).1.1 = filterCountries df Regions :=
  ⟨rfl, List.filter_sublist df, rfl⟩

/-- C8: when the country control is successfully constructed, its
options are exactly the distinct country names of the combined dataset
(every country offered once, nothing else), and its default selection is
the single region United States. -/
theorem c8_control_options (df : List Row) (ms : Multiselect)
    (h : regionsControl df = Except.ok ms) :
    (∀ c, c ∈ ms.options ↔ c ∈ df.map (·.Country)) ∧
    ms.options.Nodup ∧
    ms.dflt = ["United States"] := by
  rw [regionsControl, multiselect] at h
  by_cases hall :
      (["United States"].all (fun d => (locations df).contains d)) = true
  · rw [if_pos hall] at h
    have hms : { options := locations df, dflt := ["United States"] } = ms :=
      by injection h
    subst hms
    refine ⟨?_, nodup_uniqueInOrder _, rfl⟩
    intro c
    simpa [locations] using mem_uniqueInOrder (df.map (·.Country)) c
  · rw [if_neg hall] at h
    exact Except.noConfusion h

/-- C8 witness: a three-row dataset with two countries; the constructed
control offers each country once and defaults to the United States. -/
theorem c8_control_options_witness :
    ("Germany" ∈ (Multiselect.mk ["United States", "Germany"]
        ["United States"]).options ↔
      "Germany" ∈ twoCountryDf.map (·.Country)) ∧
    (Multiselect.mk ["United States", "Germany"]
        ["United States"]).options.Nodup ∧
    (Multiselect.mk ["United States", "Germany"] ["United States"]).dflt =
      ["United States"] := by
  have h := c8_control_options twoCountryDf
    ⟨["United States", "Germany"], ["United States"]⟩ (by rfl)
  exact ⟨h.1 "Germany", h.2.1, h.2.2⟩

/-- C9: the selection filter is idempotent (filtering the filtered view
by the same selection changes nothing) and order-preserving (the view is
a sublist of the combined dataset, so surviving rows keep their relative
order). -/
theorem c9_filter_idempotent (df : List Row) (Regions : List String) :
    filterCountries (filterCountries df Regions) Regions =
      filterCountries df Regions ∧
    (filterCountries df Regions).Sublist df := by
  refine ⟨?_, List.filter_sublist df⟩
  rw [filterCountries, List.filter_eq_self]
  intro r hr
  exact (List.mem_filter.mp hr).2

/-- C10: if the United States is not among the dataset's countries, the
multiselect's hardcoded default is not among its options, so the control
construction errors out and the app renders no chart instead of falling
back to an empty selection. -/
theorem c10_missing_default_errors (df : List Row)
    (h : "United States" ∉ df.map (·.Country)) :
    appRender df =
      Except.error "Every Multiselect default value must exist in options" := by
  have hus : "United States" ∉ locations df := by
    rw [locations, mem_uniqueInOrder]
    exact h
  rw [appRender, regionsControl, multiselect]
  simp [hus, Except.map]

/-- C10 witness: a dataset containing only Germany makes the app error
out at control construction. -/
theorem c10_missing_default_errors_witness :
    appRender [⟨"Germany", "2021-01", "99.1", "CLI"⟩] =
      Except.error "Every Multiselect default value must exist in options" :=
  c10_missing_default_errors [⟨"Germany", "2021-01", "99.1", "CLI"⟩]
    (by decide)
